import Mathlib

/-!
Verification of the per-device management core of NetworkManager
(`NetworkManagerDevice.c`, given as `src/unnamed/part_000`).

The C code is shallowly embedded: every function below is a direct
transcription of the corresponding C function (same control flow, same
comparisons), with kernel/driver interaction made explicit as oracle
parameters and with the mutable device state carried as a record.
Machine integers are `Nat` with explicit bit operations where the source
manipulates bits.  Functions whose implementation lives in repository
files that are not under `src/` (the AP-list module and the enum
headers) are modelled from the specification and marked as such in
their doc comments.
-/

namespace NMDev

/-- Network mode of a wireless device or access point
(`NMNetworkMode` in the source: `NETWORK_MODE_UNKNOWN/INFRA/ADHOC`). -/
inductive NMNetworkMode where
  | unknown
  | infra
  | adhoc
  deriving DecidableEq, Repr

/-- Encryption key types (`NMEncKeyType`): unknown, hex key, ascii key,
128-bit passphrase. -/
inductive NMEncKeyType where
  | unknown
  | hexKey
  | asciiKey
  | passphrase128
  deriving DecidableEq, Repr

/-- Modelled from the spec: the authentication-method enumeration is listed
in §3 as `{Unknown, None, OpenSystem, SharedKey}` (the defining header is
not under `src/`).  The numeric order is forced by the source itself:
`nm_device_activate_wireless` falls back from SharedKey with `auth--` and
loops `while (auth > NM_DEVICE_AUTH_METHOD_NONE)`. -/
def NM_DEVICE_AUTH_METHOD_UNKNOWN : Nat := 0

/-- Authentication method `None` (see `NM_DEVICE_AUTH_METHOD_UNKNOWN`). -/
def NM_DEVICE_AUTH_METHOD_NONE : Nat := 1

/-- Authentication method `Open System` (see `NM_DEVICE_AUTH_METHOD_UNKNOWN`). -/
def NM_DEVICE_AUTH_METHOD_OPEN_SYSTEM : Nat := 2

/-- Authentication method `Shared Key` (see `NM_DEVICE_AUTH_METHOD_UNKNOWN`). -/
def NM_DEVICE_AUTH_METHOD_SHARED_KEY : Nat := 3

/-- An access-point record (`NMAccessPoint`): ESSID (optional), BSSID
(6 bytes, optional), mode, frequency, strength, encrypted flag, key
material and type, and the invalid/artificial/user-created/trusted flags
plus the last-seen timestamp (seconds field of the `GTimeVal`). -/
structure AccessPoint where
  essid : Option String := none
  address : Option (List Nat) := none
  mode : NMNetworkMode := .infra
  freq : Nat := 0
  strength : Int := 0
  encrypted : Bool := false
  encKeySource : Option String := none
  encMethod : NMEncKeyType := .unknown
  invalid : Bool := false
  artificial : Bool := false
  userCreated : Bool := false
  trusted : Bool := false
  timestampSec : Nat := 0
  deriving DecidableEq, Repr

/-- Modelled from the spec: `get_by_essid(L, e)` returns an AP iff some AP
in `L` has ESSID `e` (§4.2, §8); `NetworkManagerAPList.c` is not under
`src/`.  A `NULL` essid argument finds nothing (the list module rejects a
`NULL` key at the door).  When several APs share the ESSID the first one
is returned. -/
def nm_ap_list_get_ap_by_essid (l : List AccessPoint) (essid : Option String) :
    Option AccessPoint :=
  match essid with
  | none => none
  | some e => l.find? (fun ap => ap.essid == some e)

/-- Modelled from the spec: `append` adds an AP to a list (§4.2);
`NetworkManagerAPList.c` is not under `src/`. -/
def nm_ap_list_append_ap (l : List AccessPoint) (ap : AccessPoint) : List AccessPoint :=
  l ++ [ap]

/-- Sets the encryption key source and method of an AP
(`nm_ap_set_enc_key_source`; value-level update of the record). -/
def nm_ap_set_enc_key_source (ap : AccessPoint) (src : Option String)
    (m : NMEncKeyType) : AccessPoint :=
  { ap with encKeySource := src, encMethod := m }

/-- Sets the invalid flag of an AP (`nm_ap_set_invalid`). -/
def nm_ap_set_invalid (ap : AccessPoint) (b : Bool) : AccessPoint :=
  { ap with invalid := b }

/-- The process-wide lists shared by all devices (`NMData`): the
administrator-allowed networks and the invalid networks. -/
structure NMData where
  allowed_ap_list : List AccessPoint := []
  invalid_ap_list : List AccessPoint := []
  deriving DecidableEq, Repr

/-! ## Association pause (source lines 405-419) -/

/-- The radio range information we need: the channel count reported by the
driver (`range_info.num_frequency`). -/
structure RangeInfo where
  num_frequency : Nat := 0
  deriving DecidableEq, Repr

/-- Transcription of `nm_device_get_association_pause_value` (lines
405-419): returns `5` for a `NULL` device, `-1` for a non-wireless device,
`10` when the radio reports more than 14 frequencies and `5` otherwise.
The first guard cannot fire in the value model, so the argument is the
wireless flag plus the range info. -/
def nm_device_get_association_pause_value (is_wireless : Bool)
    (range_info : RangeInfo) : Int :=
  if !is_wireless then -1
  else if range_info.num_frequency > 14 then 10
  else 5

/-! ## Test-device AP address (source lines 926-954)

The comment above `nm_device_get_ap_address` says: "Test devices return an
invalid address when there's no link, and a made-up address when there is a
link."  The code of the test branch, however, is
`memcpy ((link ? &good_addr : &bad_addr), &(wrq.u.ap_addr.sa_data), ...)`:
the destination is the local `good_addr`/`bad_addr` variable and the source
is the never-initialised `wrq`, so the caller's output buffer `addr` is
never written in that branch. -/

/-- The fixed made-up MAC of the test branch (`good_addr`,
`{0x70, 0x37, 0x03, 0x70, 0x37, 0x03}`). -/
def test_good_addr : List Nat := [0x70, 0x37, 0x03, 0x70, 0x37, 0x03]

/-- The all-zero MAC of the test branch (`bad_addr`). -/
def test_bad_addr : List Nat := [0, 0, 0, 0, 0, 0]

/-- The local variables of the test branch of `nm_device_get_ap_address`
after the `memcpy` has executed (they are discarded on return). -/
structure ApAddrLocals where
  good_addr : List Nat
  bad_addr : List Nat
  deriving DecidableEq, Repr

/-- Transcription of the test-device branch of `nm_device_get_ap_address`
(lines 938-946).  `wrq_uninit` is the (uninitialised) content of
`wrq.u.ap_addr.sa_data`; `caller_buf` the content of the caller's `addr`
buffer.  The `memcpy` copies `wrq` into the selected local variable and
the function returns; the result is the caller's buffer (unchanged) and
the clobbered locals. -/
def nm_device_get_ap_address_test (link_active : Bool) (wrq_uninit : List Nat)
    (caller_buf : List Nat) : List Nat × ApAddrLocals :=
  let locals : ApAddrLocals :=
    if link_active then { good_addr := wrq_uninit, bad_addr := test_bad_addr }
    else { good_addr := test_good_addr, bad_addr := wrq_uninit }
  (caller_buf, locals)

/-! ## Interface up/down (source lines 1301-1390) -/

/-- The `IFF_UP` interface flag bit. -/
def IFF_UP : Nat := 1

/-- One less than 2^32; `~x` on a 32-bit word is `WORD32_MASK ^^^ x`. -/
def WORD32_MASK : Nat := 2 ^ 32 - 1

/-- The state `nm_device_set_up_down` and `nm_device_is_up` read and
write: test-device flags and the kernel `SIOCGIFFLAGS` word (the get-flags
ioctl is assumed to succeed; on failure the source changes nothing and
`is_up` returns false just as for a cleared flag). -/
structure UpDownDevice where
  test_device : Bool := false
  test_device_up : Bool := false
  driver_unsupported : Bool := false
  if_flags : Nat := 0
  deriving DecidableEq, Repr

/-- Transcription of `nm_device_is_up` (lines 1366-1390): test devices
report `test_device_up`; otherwise the result is
`!((ifr_flags ^ IFF_UP) & IFF_UP)`. -/
def nm_device_is_up (dev : UpDownDevice) : Bool :=
  if dev.test_device then dev.test_device_up
  else ((dev.if_flags ^^^ IFF_UP) &&& IFF_UP) == 0

/-- Transcription of `nm_device_set_up_down` (lines 1301-1345).  Returns
the new state and whether the `SIOCSIFFLAGS` set-flags ioctl was issued:
the source computes `flags = up ? IFF_UP : ~IFF_UP`, reads the current
flags, and only issues the set when `(ifr_flags ^ flags) & IFF_UP` is
non-zero, in which case it clears the `IFF_UP` bit and ORs in
`IFF_UP & flags`. -/
def nm_device_set_up_down (dev : UpDownDevice) (up : Bool) : UpDownDevice × Bool :=
  let flags : Nat := if up then IFF_UP else WORD32_MASK ^^^ IFF_UP
  if dev.test_device then ({ dev with test_device_up := up }, false)
  else if dev.driver_unsupported then (dev, false)
  else if ((dev.if_flags ^^^ flags) &&& IFF_UP) != 0 then
    ({ dev with if_flags := (dev.if_flags &&& (WORD32_MASK ^^^ IFF_UP)) ||| (IFF_UP &&& flags) },
     true)
  else (dev, false)

/-- Transcription of `nm_device_bring_up` (lines 1352-1357). -/
def nm_device_bring_up (dev : UpDownDevice) : UpDownDevice × Bool :=
  nm_device_set_up_down dev true

/-- Transcription of the prologue of `nm_device_activation_worker` (lines
2050-2052).  The source reads
`if (!nm_device_is_up (dev));` followed by `nm_device_bring_up (dev);`:
the stray semicolon makes the guard an empty statement, so `is_up` is
evaluated and discarded and `bring_up` runs unconditionally. -/
def activation_worker_bring_up (dev : UpDownDevice) : UpDownDevice × Bool :=
  let _discarded := nm_device_is_up dev
  nm_device_bring_up dev

/-- Transcription of the per-iteration bring-up of `nm_device_do_pseudo_scan`
(lines 2892-2893); the same stray-semicolon construct as in the activation
worker, so `bring_up` again runs unconditionally. -/
def pseudo_scan_bring_up (dev : UpDownDevice) : UpDownDevice × Bool :=
  let _discarded := nm_device_is_up dev
  nm_device_bring_up dev

/-! ## Activation begin (source lines 1526-1578) -/

/-- Device kind (`NMDeviceType`). -/
inductive DeviceTypeKind where
  | dontKnow
  | wired
  | wireless
  deriving DecidableEq, Repr

/-- The device fields read and written by `nm_device_activation_begin`. -/
structure BeginDevice where
  device_type : DeviceTypeKind := .wired
  activating : Bool := false
  quit_activation : Bool := false
  now_scanning : Bool := false
  user_key_received : Bool := false
  driver_unsupported : Bool := false
  ip4_address : Nat := 0
  deriving DecidableEq, Repr

/-- The observable outcome of `nm_device_activation_begin`: the return
value, the updated device flags, whether a worker thread was spawned,
the host-bus signals this function emitted, and any activation result
scheduled onto the main loop. -/
structure BeginResult where
  ret : Bool
  dev : BeginDevice
  worker_started : Bool
  signals : List String
  scheduled_finish : Option Bool
  deriving DecidableEq, Repr

/-- Transcription of `nm_device_activation_begin` (lines 1526-1578):
return at once when already activating; reset the worker communication
flags; bail out on an unsupported driver; on process startup with a wired,
already-addressed device schedule an immediate successful finish without
spawning the worker or emitting `DEVICE_ACTIVATING`; otherwise spawn the
worker and emit `DEVICE_ACTIVATING` (thread creation is assumed to
succeed). -/
def nm_device_activation_begin (starting_up : Bool) (dev0 : BeginDevice) : BeginResult :=
  if dev0.activating then
    { ret := true, dev := dev0, worker_started := false, signals := [],
      scheduled_finish := none }
  else
    let dev1 := { dev0 with activating := true, quit_activation := false }
    let dev2 :=
      if dev1.device_type == .wireless then
        { dev1 with now_scanning := false, user_key_received := false }
      else dev1
    if dev2.driver_unsupported then
      { ret := false, dev := { dev2 with activating := false }, worker_started := false,
        signals := [], scheduled_finish := none }
    else if starting_up && (dev2.device_type == .wired) && (dev2.ip4_address != 0) then
      { ret := true, dev := { dev2 with activating := false }, worker_started := false,
        signals := [], scheduled_finish := some true }
    else
      { ret := true, dev := dev2, worker_started := true,
        signals := ["DeviceStatusChanged:Activating"], scheduled_finish := none }

/-! ## Encrypted wireless activation (source lines 1855-1961)

The `while (auth > NM_DEVICE_AUTH_METHOD_NONE)` loop of
`nm_device_activate_wireless` configures the radio with the current auth
method, then checks the link and runs IP configuration.  The kernel and
DHCP outcomes are oracle functions of the auth method just configured
(the link state is refreshed by `nm_device_set_wireless_config` on every
iteration, and IP configuration is attempted afresh per iteration). -/

/-- Where the encrypted-activation loop exits to. -/
inductive EncActOutcome where
  /-- `success = TRUE; break;` — link and IP configuration both succeeded. -/
  | success
  /-- `goto get_ap` after marking the AP invalid and appending it to the
  process-wide invalid list: the engine re-enters the WAIT_FOR_AP poll. -/
  | invalidReenterWait
  /-- `need_key = TRUE; goto need_key;` — the engine returns to the
  NEED_KEY block. -/
  | reenterNeedKey
  /-- the `while (auth > NONE)` condition became false (unreachable from
  SharedKey in infrastructure mode, kept for fidelity). -/
  | loopExit
  deriving DecidableEq, Repr

/-- Result of the loop: the exit reason plus the auth methods configured,
in order (`nm_device_set_wireless_config` is called once per iteration). -/
structure EncActResult where
  outcome : EncActOutcome
  attempts : List Nat
  deriving DecidableEq, Repr

/-- Transcription of the authentication-fallback loop (lines 1896-1960).
`link auth` is `HAVE_LINK` after configuring with `auth`; `dhcp auth` the
result of `nm_device_activation_configure_ip (dev, FALSE)`; `autoip auth`
the result of `nm_device_activation_configure_ip (dev, TRUE)` (in ad-hoc
mode its value is computed and then overwritten by the unconditional
`success = TRUE`, exactly as in the source).  The `continue` branches
decrement `auth` (SharedKey falls back to OpenSystem). -/
def activate_wireless_enc_loop (mode : NMNetworkMode) (link dhcp autoip : Nat → Bool) :
    Nat → List Nat → EncActResult
  | auth, acc =>
    if h : auth ≤ NM_DEVICE_AUTH_METHOD_NONE then
      { outcome := .loopExit, attempts := acc }
    else
      let acc2 := acc ++ [auth]
      match mode with
      | .adhoc =>
        let _overwritten := autoip auth
        { outcome := .success, attempts := acc2 }
      | .infra =>
        if !(link auth) && (auth == NM_DEVICE_AUTH_METHOD_SHARED_KEY) then
          activate_wireless_enc_loop mode link dhcp autoip (auth - 1) acc2
        else if !(link auth) then
          { outcome := .invalidReenterWait, attempts := acc2 }
        else if !(dhcp auth) && (auth == NM_DEVICE_AUTH_METHOD_SHARED_KEY) then
          activate_wireless_enc_loop mode link dhcp autoip (auth - 1) acc2
        else if !(dhcp auth) then
          { outcome := .reenterNeedKey, attempts := acc2 }
        else
          { outcome := .success, attempts := acc2 }
      | .unknown =>
        { outcome := .success, attempts := acc2 }
  termination_by auth _ => auth
  decreasing_by all_goals { simp only [NM_DEVICE_AUTH_METHOD_NONE] at h; omega }

/-- The encrypted-with-key branch of `nm_device_activate_wireless` as a
whole: the loop is entered with `auth = NM_DEVICE_AUTH_METHOD_SHARED_KEY`
(line 1857); when it exits to `goto get_ap` the best AP has been marked
invalid and appended to the process-wide invalid list (lines 1932-1933),
and when it exits to `goto need_key` the NEED_KEY block runs next. -/
structure EncActivation where
  result : EncActResult
  invalid_ap_list : List AccessPoint
  need_key_next : Bool
  deriving DecidableEq, Repr

/-- The encrypted-with-key activation path (lines 1855-1961). -/
def nm_device_activate_wireless_enc (data : NMData) (best_ap : AccessPoint)
    (link dhcp autoip : Nat → Bool) : EncActivation :=
  let r := activate_wireless_enc_loop best_ap.mode link dhcp autoip
    NM_DEVICE_AUTH_METHOD_SHARED_KEY []
  match r.outcome with
  | .invalidReenterWait =>
    { result := r,
      invalid_ap_list := nm_ap_list_append_ap data.invalid_ap_list
        (nm_ap_set_invalid best_ap true),
      need_key_next := false }
  | .reenterNeedKey =>
    { result := r, invalid_ap_list := data.invalid_ap_list, need_key_next := true }
  | _ =>
    { result := r, invalid_ap_list := data.invalid_ap_list, need_key_next := false }

/-- Effect of one pass through the NEED_KEY block (lines 1860-1871): if
the ESSID changed since the last request the attempt counter resets to 1;
the request is issued with the current counter, the counter is then
incremented, and the last-requested ESSID is recorded (truncated to 49
bytes by the `strncpy`). -/
structure KeyRequest where
  attempt_used : Nat
  attempt_after : Nat
  last_essid_after : String
  deriving DecidableEq, Repr

/-- One pass through the NEED_KEY block (lines 1860-1871). -/
def need_key_request (attempt : Nat) (last_essid : String) (essid : String) : KeyRequest :=
  let a := if essid != last_essid then 1 else attempt
  { attempt_used := a, attempt_after := a + 1, last_essid_after := essid.take 49 }

/-! ## Best-AP selection (source lines 2541-2637) -/

/-- The wireless-device state read and written by the best-AP selector and
the user-key handler: the device-visible AP list, the best-AP handle with
its freeze flag, the radio's current ESSID and key (a `none` key models
encryption disabled), the interface up flag, and the key-received flag. -/
structure DeviceState where
  ap_list : List AccessPoint := []
  best_ap : Option AccessPoint := none
  freeze_best_ap : Bool := false
  cur_essid : Option String := none
  enc_key_on_card : Option String := none
  iface_up : Bool := false
  user_key_received : Bool := false
  deriving DecidableEq, Repr

/-- Transcription of `nm_device_set_best_ap` (lines 2412-2428): stores the
new best AP and clears the freeze flag (`nm_device_unfreeze_best_ap`). -/
def nm_device_set_best_ap (dev : DeviceState) (ap : Option AccessPoint) : DeviceState :=
  { dev with best_ap := ap, freeze_best_ap := false }

/-- The four running-maximum variables of `nm_device_update_best_ap`
(`trusted_latest_timestamp`, `trusted_best_ap`,
`untrusted_latest_timestamp`, `untrusted_best_ap`), initialised to
`{0, 0}` and `NULL`. -/
structure BestScanAcc where
  trusted_latest : Nat := 0
  trusted_best : Option AccessPoint := none
  untrusted_latest : Nat := 0
  untrusted_best : Option AccessPoint := none
  deriving DecidableEq, Repr

/-- One iteration of the scan loop of `nm_device_update_best_ap` (lines
2597-2625): skip APs whose ESSID is in the invalid list; for an AP whose
ESSID matches an allowed entry, update the trusted (resp. untrusted)
running maximum when the allowed entry's timestamp is strictly greater,
copying the allowed entry's key material onto the scan AP. -/
def update_best_ap_step (data : NMData) (acc : BestScanAcc) (scan_ap : AccessPoint) :
    BestScanAcc :=
  if (nm_ap_list_get_ap_by_essid data.invalid_ap_list scan_ap.essid).isSome then acc
  else
    match nm_ap_list_get_ap_by_essid data.allowed_ap_list scan_ap.essid with
    | none => acc
    | some tmp_ap =>
      if tmp_ap.trusted && decide (tmp_ap.timestampSec > acc.trusted_latest) then
        { acc with trusted_latest := tmp_ap.timestampSec,
                   trusted_best :=
                     some (nm_ap_set_enc_key_source scan_ap tmp_ap.encKeySource tmp_ap.encMethod) }
      else if !tmp_ap.trusted && decide (tmp_ap.timestampSec > acc.untrusted_latest) then
        { acc with untrusted_latest := tmp_ap.timestampSec,
                   untrusted_best :=
                     some (nm_ap_set_enc_key_source scan_ap tmp_ap.encKeySource tmp_ap.encMethod) }
      else acc

/-- The non-frozen part of `nm_device_update_best_ap` (lines 2595-2637):
fold the scan loop over the device list, pick the trusted maximum if any,
else the untrusted one; store it via `nm_device_set_best_ap`; when the
result is `NULL` clear the radio's ESSID (single space) and encryption
key and bring the interface up. -/
def update_best_ap_select (data : NMData) (dev : DeviceState) : DeviceState :=
  let acc := dev.ap_list.foldl (update_best_ap_step data) {}
  let best := match acc.trusted_best with
              | some b => some b
              | none => acc.untrusted_best
  let dev2 := nm_device_set_best_ap dev best
  match best with
  | none => { dev2 with cur_essid := some " ", enc_key_on_card := none, iface_up := true }
  | some _ => dev2

/-- Transcription of `nm_device_update_best_ap` (lines 2541-2637).  When
the selection is frozen and a best AP exists, it is kept untouched exactly
when its ESSID is not in the invalid list and still in the device list, or
the AP is user-created; otherwise the freeze flag is cleared and the
selection recomputed. -/
def nm_device_update_best_ap (data : NMData) (dev : DeviceState) : DeviceState :=
  if dev.freeze_best_ap then
    match dev.best_ap with
    | some best =>
      if ((nm_ap_list_get_ap_by_essid data.invalid_ap_list best.essid).isNone
            && (nm_ap_list_get_ap_by_essid dev.ap_list best.essid).isSome)
          || best.userCreated then
        dev
      else
        update_best_ap_select data { dev with freeze_best_ap := false }
    | none => update_best_ap_select data { dev with freeze_best_ap := false }
  else
    update_best_ap_select data dev

/-! ## User key receipt (source lines 2253-2290) -/

/-- The cancellation sentinel (`cancel_message`, line 2258). -/
def cancel_message : String := "***canceled***"

/-- The semantics of `strncmp (key, msg, strlen (msg)) == 0` for a
NUL-free `msg`: every character of `msg` must match the corresponding
character of `key` (comparison stops early, unequal, if `key` ends
first). -/
def strncmp_chars : List Char → List Char → Bool
  | [], _ => true
  | _ :: _, [] => false
  | a :: as, b :: bs => a == b && strncmp_chars as bs

/-- The cancellation test of line 2266:
`strncmp (key, cancel_message, strlen (cancel_message)) == 0`, i.e. the
sentinel is a byte prefix of the reply. -/
def cancel_matches (key : String) : Bool :=
  strncmp_chars cancel_message.data key.data

/-- Result of `nm_device_set_user_key_for_network`: the updated device
state and the (possibly extended) process-wide invalid list. -/
structure SetKeyResult where
  dev : DeviceState
  invalid_ap_list : List AccessPoint
  deriving DecidableEq, Repr

/-- Transcription of `nm_device_set_user_key_for_network` (lines
2253-2290).  The cancellation test is
`strncmp (key, cancel_message, strlen (cancel_message)) == 0`, which
compares only the first 14 bytes, i.e. holds exactly when the sentinel is
a prefix of the reply.  On cancellation, a copy of the named AP (when the
device list holds one under that ESSID; `nm_ap_new_from_ap` is value
copying) is appended to the invalid list and the best AP recomputed with
that extended list; otherwise the key is stored on the current best AP
when its ESSID matches the request.  The key-received flag is set in every
case. -/
def nm_device_set_user_key_for_network (data : NMData) (dev : DeviceState)
    (network : String) (key : String) (enc_method : NMEncKeyType) : SetKeyResult :=
  if cancel_matches key then
    let invalid2 :=
      match nm_ap_list_get_ap_by_essid dev.ap_list (some network) with
      | some ap => nm_ap_list_append_ap data.invalid_ap_list ap
      | none => data.invalid_ap_list
    let dev2 := nm_device_update_best_ap { data with invalid_ap_list := invalid2 } dev
    { dev := { dev2 with user_key_received := true }, invalid_ap_list := invalid2 }
  else
    match dev.best_ap with
    | some best =>
      let best2 :=
        if best.essid == some network then
          nm_ap_set_enc_key_source best (some key) enc_method
        else best
      { dev := { dev with best_ap := some best2, user_key_received := true },
        invalid_ap_list := data.invalid_ap_list }
    | none =>
      { dev := { dev with user_key_received := true },
        invalid_ap_list := data.invalid_ap_list }

/-! ## Probing for a network by ESSID (source lines 2651-2778) -/

/-- Result of `nm_device_wireless_network_exists`: the return value, the
contents of the caller's `ap_addr` buffer (written only when an attempt
succeeds), the `*encrypted` flag, and the auth methods configured, in
order. -/
structure ProbeResult where
  success : Bool
  ap_addr : List Nat
  encrypted : Bool
  attempts : List Nat
  deriving DecidableEq, Repr

/-- The auth order used by `nm_device_wireless_network_exists` (lines
2658 and 2683-2688): SharedKey, OpenSystem, None — except
None, SharedKey, OpenSystem when the AP is in the device list and known
unencrypted. -/
def wireless_exists_auth_order (dev_list : List AccessPoint) (network : String) :
    List Nat :=
  match nm_ap_list_get_ap_by_essid dev_list (some network) with
  | some a =>
    if !a.encrypted then
      [NM_DEVICE_AUTH_METHOD_NONE, NM_DEVICE_AUTH_METHOD_SHARED_KEY,
       NM_DEVICE_AUTH_METHOD_OPEN_SYSTEM]
    else
      [NM_DEVICE_AUTH_METHOD_SHARED_KEY, NM_DEVICE_AUTH_METHOD_OPEN_SYSTEM,
       NM_DEVICE_AUTH_METHOD_NONE]
  | none =>
    [NM_DEVICE_AUTH_METHOD_SHARED_KEY, NM_DEVICE_AUTH_METHOD_OPEN_SYSTEM,
     NM_DEVICE_AUTH_METHOD_NONE]

/-- One iteration of the probe loop (lines 2706-2763): configure the key
for the auth method (`temp_enc` is true for SharedKey/OpenSystem, false
for None), set the ESSID, pause, and on association
(`nm_device_wireless_is_associated && nm_device_get_essid`) overwrite the
output BSSID and `*encrypted`.  There is no `break`: the loop always runs
on to the next method. -/
def probe_auth_step (assoc : Nat → Bool) (bssid : Nat → List Nat)
    (st : ProbeResult) (auth : Nat) : ProbeResult :=
  let temp_enc := auth != NM_DEVICE_AUTH_METHOD_NONE
  let st2 := { st with attempts := st.attempts ++ [auth] }
  if assoc auth then
    { st2 with success := true, ap_addr := bssid auth, encrypted := temp_enc }
  else st2

/-- Transcription of `nm_device_wireless_network_exists` (lines
2651-2778).  `assoc auth` is the association check after configuring the
card with `auth`; `bssid auth` the BSSID `nm_device_get_ap_address` reads
at that point; `addr0` the initial contents of the caller's `ap_addr`
buffer.  `*encrypted` starts false; ad-hoc networks succeed iff the AP is
in the device list, infrastructure ones run the probe loop; finally, when
the AP is in the device list, `*encrypted` is overwritten with that
entry's flag. -/
def nm_device_wireless_network_exists (dev_list : List AccessPoint) (network : String)
    (assoc : Nat → Bool) (bssid : Nat → List Nat) (addr0 : List Nat) : ProbeResult :=
  let ap := nm_ap_list_get_ap_by_essid dev_list (some network)
  let mode := match ap with
              | some a => a.mode
              | none => NMNetworkMode.infra
  let auths := wireless_exists_auth_order dev_list network
  let init : ProbeResult :=
    { success := false, ap_addr := addr0, encrypted := false, attempts := [] }
  let r :=
    match mode with
    | .adhoc => { init with success := ap.isSome }
    | .infra => auths.foldl (probe_auth_step assoc bssid) init
    | .unknown => init
  match ap with
  | some a => { r with encrypted := a.encrypted }
  | none => r

/-- Modelled from the spec's words for the refinement comparison of the
probe contract (§4.6: "First success wins; returns the BSSID and whether
encryption was needed"): probing stops at the first successful
association, and the BSSID and encryption-needed flag observed there are
returned. -/
def wireless_network_exists_first_success (dev_list : List AccessPoint) (network : String)
    (assoc : Nat → Bool) (bssid : Nat → List Nat) (addr0 : List Nat) : ProbeResult :=
  let auths := wireless_exists_auth_order dev_list network
  match auths.find? assoc with
  | some a =>
    { success := true, ap_addr := bssid a,
      encrypted := a != NM_DEVICE_AUTH_METHOD_NONE,
      attempts := auths.takeWhile (fun x => !assoc x) ++ [a] }
  | none =>
    { success := false, ap_addr := addr0, encrypted := false, attempts := auths }

/-! ## Scan-result processing (source lines 3007-3167) -/

/-- One driver scan record (the fields of iwlib's `wireless_scan` that
`nm_device_process_scan_results` reads; the quality-to-percent conversion
is an external helper, so the converted strength is given directly). -/
structure ScanRecord where
  has_essid : Bool := false
  essid : String := ""
  has_ap_addr : Bool := false
  ap_addr : List Nat := [0, 0, 0, 0, 0, 0]
  has_key : Bool := false
  key_disabled : Bool := false
  has_mode : Bool := false
  mode_adhoc : Bool := false
  strength : Int := 0
  has_freq : Bool := false
  freq : Nat := 0
  deriving DecidableEq, Repr

/-- Conversion of one driver record into an `AccessPoint` (lines
3046-3104): records with neither an ESSID nor a BSSID are dropped; blank
or `"<hidden>"` ESSIDs become no-ESSID; `encrypted` is false exactly when
the record has a key with the disabled flag; the mode defaults to
Infrastructure. -/
def convert_scan_record (r : ScanRecord) : Option AccessPoint :=
  if r.has_essid || r.has_ap_addr then
    some { essid :=
             if !r.has_essid || r.essid == "" || r.essid == "<hidden>" then none
             else some r.essid,
           address := if r.has_ap_addr then some r.ap_addr else none,
           mode := if r.has_mode then (if r.mode_adhoc then .adhoc else .infra) else .infra,
           freq := if r.has_freq then r.freq else 0,
           strength := r.strength,
           encrypted := !(r.has_key && r.key_disabled) }
  else none

/-- Conversion of a whole driver scan (the `while (tmp_ap)` loop, lines
3045-3106). -/
def convert_scan_results (rs : List ScanRecord) : List AccessPoint :=
  rs.filterMap convert_scan_record

/-- Modelled from the spec: `combine(a, b)` is the union of two lists with
newest-timestamp-wins on collision (§4.2); `NetworkManagerAPList.c` is not
under `src/`.  Collision is by BSSID when both records have one, else by
ESSID. -/
def ap_collides (x y : AccessPoint) : Bool :=
  match x.address, y.address with
  | some ax, some ay => ax == ay
  | _, _ => x.essid.isSome && x.essid == y.essid

/-- Modelled from the spec: see `ap_collides`. -/
def nm_ap_list_combine (a b : List AccessPoint) : List AccessPoint :=
  (a.map fun ap =>
    match b.find? (fun bp => ap_collides ap bp) with
    | some bp => if bp.timestampSec > ap.timestampSec then bp else ap
    | none => ap)
  ++ b.filter fun bp => !(a.any fun ap => ap_collides ap bp)

/-- The snapshot ring and visible list of a wireless device
(`cached_ap_list1/2/3` — `S₁` newest — and `ap_list`). -/
structure ScanState where
  cached_ap_list1 : List AccessPoint := []
  cached_ap_list2 : List AccessPoint := []
  cached_ap_list3 : List AccessPoint := []
  ap_list : List AccessPoint := []
  deriving DecidableEq, Repr

/-- Transcription of lines 3038-3113 of `nm_device_process_scan_results`:
shift the snapshot ring (`S₃ ← S₂; S₂ ← S₁; S₁ ← new`, dropping the
oldest), convert the driver records into the new `S₁`, and assign the
device-visible list `ap_list ← combine (S₁, S₂)`.  The property-copy and
artificial-AP steps that follow in the source (lines 3115-3166) operate on
this state afterwards and do not touch the ring. -/
def process_scan_shift_and_combine (st : ScanState) (rs : List ScanRecord) : ScanState :=
  let s1 := convert_scan_results rs
  { cached_ap_list1 := s1,
    cached_ap_list2 := st.cached_ap_list1,
    cached_ap_list3 := st.cached_ap_list2,
    ap_list := nm_ap_list_combine s1 st.cached_ap_list1 }

/-- The dispatch of `nm_device_process_scan_results` (lines 3007-3036): a
`NULL` result list is ignored; synthetic devices get the fake AP list;
scan-incapable devices run the pseudo-scan; everything else processes the
scan, beginning with the ring shift and combine. -/
inductive ScanProcessOutcome where
  | ignored
  | fakedApList
  | pseudoScan
  | processed (st : ScanState)
  deriving DecidableEq, Repr

/-- Transcription of `nm_device_process_scan_results` (lines 3007-3113;
see `process_scan_shift_and_combine` for the scope of the processed
branch). -/
def nm_device_process_scan_results (test_device supports_scan : Bool)
    (st : ScanState) (results : Option (List ScanRecord)) : ScanProcessOutcome :=
  match results with
  | none => .ignored
  | some rs =>
    if test_device then .fakedApList
    else if !supports_scan then .pseudoScan
    else .processed (process_scan_shift_and_combine st rs)

/-! ## Specification vocabulary for the best-AP selection -/

/-- The allowed entry a visible AP is judged against in
`nm_device_update_best_ap`: `none` when the AP's ESSID is in the invalid
list (the AP is skipped) or matches no allowed entry; otherwise the
matching allowed entry. -/
def best_ap_candidate (data : NMData) (ap : AccessPoint) : Option AccessPoint :=
  if (nm_ap_list_get_ap_by_essid data.invalid_ap_list ap.essid).isSome then none
  else nm_ap_list_get_ap_by_essid data.allowed_ap_list ap.essid

/-- Invariant tying one side (`want = true`: trusted, `want = false`:
untrusted) of the running-maximum accumulator to the prefix `l` of the
device list already processed: when no candidate is held, the stored
timestamp is zero and every allowed match in `l` on this side has
timestamp zero; when a candidate is held, its timestamp is positive,
it comes from an AP of `l` carrying the allowed entry's key material,
and it is maximal among this side's matches. -/
def acc_side_inv (data : NMData) (want : Bool) (l : List AccessPoint)
    (latest : Nat) (besto : Option AccessPoint) : Prop :=
  match besto with
  | none =>
    latest = 0
    ∧ ∀ ap ∈ l, ∀ e, best_ap_candidate data ap = some e → e.trusted = want →
        e.timestampSec = 0
  | some b =>
    0 < latest
    ∧ (∃ ap ∈ l, ∃ e, best_ap_candidate data ap = some e ∧ e.trusted = want
        ∧ e.timestampSec = latest
        ∧ b = nm_ap_set_enc_key_source ap e.encKeySource e.encMethod)
    ∧ ∀ ap ∈ l, ∀ e, best_ap_candidate data ap = some e → e.trusted = want →
        e.timestampSec ≤ latest

/-! # Theorems -/

/-- Helper: low bit of `x ^^^ 1` is the flipped low bit of `x`. -/
theorem xor_one_and_one_eq (n : Nat) : (n ^^^ 1) &&& 1 = 1 - n % 2 := by
  rw [Nat.and_one_is_mod, Nat.xor_mod_two_eq]
  omega

/-- Helper: the low bit of `x ||| 1` is set. -/
theorem or_one_and_one_eq (n : Nat) : (n ||| 1) &&& 1 = 1 := by
  have h2 : (n ||| 1).testBit 0 = (n.testBit 0 || true) := by
    simpa using Nat.testBit_or n 1 0
  simp only [Bool.or_true] at h2
  rw [← Nat.mod_two_eq_one_iff_testBit_zero] at h2
  rw [Nat.and_one_is_mod, h2]

/-- C8: for every wireless device, the association pause value is 10
seconds when the radio's range information reports more than 14
frequencies (`num_frequency > 14`) and 5 seconds otherwise. -/
theorem association_pause_value_spec (ri : RangeInfo) :
    (nm_device_get_association_pause_value true ri = 10 ↔ ri.num_frequency > 14)
    ∧ (nm_device_get_association_pause_value true ri = 5 ↔ ¬ ri.num_frequency > 14) := by
  unfold nm_device_get_association_pause_value
  by_cases h : ri.num_frequency > 14 <;> simp [h]

/-- Witness for C8 at concrete channel counts 15 and 14. -/
theorem association_pause_value_spec_witness :
    nm_device_get_association_pause_value true { num_frequency := 15 } = 10
    ∧ nm_device_get_association_pause_value true { num_frequency := 14 } = 5 :=
  ⟨(association_pause_value_spec { num_frequency := 15 }).1.mpr (by decide),
   (association_pause_value_spec { num_frequency := 14 }).2.mpr (by decide)⟩

/-- C10: in the synthetic-device branch of `nm_device_get_ap_address`, the
caller's output buffer is returned unchanged for every input — in
particular, with the link active and a zeroed buffer, the fixed made-up
MAC `70:37:03:70:37:03` is NOT written into it, contradicting both the
claim and the function's own comment.  The swapped `memcpy` instead
clobbers the local `good_addr`/`bad_addr` temporaries with the
uninitialised `wrq` bytes. -/
theorem get_ap_address_test_branch_never_writes_buffer :
    (∀ (link : Bool) (wrq buf : List Nat),
      (nm_device_get_ap_address_test link wrq buf).1 = buf)
    ∧ (nm_device_get_ap_address_test true [9, 9, 9, 9, 9, 9] [0, 0, 0, 0, 0, 0]).1
        ≠ test_good_addr
    ∧ (nm_device_get_ap_address_test true [9, 9, 9, 9, 9, 9] [0, 0, 0, 0, 0, 0]).2.good_addr
        = [9, 9, 9, 9, 9, 9] := by
  refine ⟨fun link wrq buf => rfl, ?_, ?_⟩ <;> decide

/-- C9: at the start of the activation worker and in each pseudo-scan
iteration the device is brought up only if it is not already up.  The
stray semicolon in `if (!nm_device_is_up (dev));` makes `nm_device_bring_up`
run unconditionally, but `nm_device_set_up_down` issues the `SIOCSIFFLAGS`
set only when the `IFF_UP` bit differs, so for a supported non-synthetic
device: the set-flags ioctl is issued exactly when the device is not up,
an already-up device is left completely untouched, and afterwards the
device is up. -/
theorem worker_and_pseudo_scan_bring_up_only_if_down (dev : UpDownDevice)
    (htest : dev.test_device = false) (hsup : dev.driver_unsupported = false) :
    ((activation_worker_bring_up dev).2 = !nm_device_is_up dev
      ∧ (nm_device_is_up dev = true → activation_worker_bring_up dev = (dev, false))
      ∧ nm_device_is_up (activation_worker_bring_up dev).1 = true)
    ∧ ((pseudo_scan_bring_up dev).2 = !nm_device_is_up dev
      ∧ (nm_device_is_up dev = true → pseudo_scan_bring_up dev = (dev, false))
      ∧ nm_device_is_up (pseudo_scan_bring_up dev).1 = true) := by
  have key :
      (nm_device_bring_up dev).2 = !nm_device_is_up dev
      ∧ (nm_device_is_up dev = true → nm_device_bring_up dev = (dev, false))
      ∧ nm_device_is_up (nm_device_bring_up dev).1 = true := by
    have hx := xor_one_and_one_eq dev.if_flags
    rcases Nat.mod_two_eq_zero_or_one dev.if_flags with h | h
    · -- IFF_UP clear: the device is down, the set-flags ioctl runs.
      have hcond : (dev.if_flags ^^^ 1) &&& 1 = 1 := by omega
      have hup : nm_device_is_up dev = false := by
        unfold nm_device_is_up
        rw [htest]
        simp [IFF_UP, hcond]
      have hres : nm_device_bring_up dev =
          ({ dev with if_flags := dev.if_flags &&& (WORD32_MASK ^^^ IFF_UP) ||| 1 }, true) := by
        unfold nm_device_bring_up nm_device_set_up_down
        rw [htest, hsup]
        simp [IFF_UP, hcond]
      refine ⟨?_, ?_, ?_⟩
      · rw [hres, hup]
        rfl
      · intro hcontra
        rw [hup] at hcontra
        cases hcontra
      rw [hres]
      have hmod : (dev.if_flags &&& (WORD32_MASK ^^^ IFF_UP) ||| 1) % 2 = 1 := by
        have := or_one_and_one_eq (dev.if_flags &&& (WORD32_MASK ^^^ IFF_UP))
        rwa [Nat.and_one_is_mod] at this
      have hnew : ((dev.if_flags &&& (WORD32_MASK ^^^ IFF_UP) ||| 1) ^^^ 1) &&& 1 = 0 := by
        have := xor_one_and_one_eq (dev.if_flags &&& (WORD32_MASK ^^^ IFF_UP) ||| 1)
        omega
      unfold nm_device_is_up
      simp only [IFF_UP] at hmod
      simp [htest, IFF_UP, hnew]
      omega
    · -- IFF_UP set: the device is up and nothing is touched.
      have hcond : (dev.if_flags ^^^ 1) &&& 1 = 0 := by omega
      have hup : nm_device_is_up dev = true := by
        unfold nm_device_is_up
        rw [htest]
        simp [IFF_UP, hcond]
      have hres : nm_device_bring_up dev = (dev, false) := by
        unfold nm_device_bring_up nm_device_set_up_down
        rw [htest, hsup]
        simp [IFF_UP, hcond]
      refine ⟨?_, fun _ => hres, ?_⟩
      · rw [hres, hup]
        rfl
      · rw [hres]
        exact hup
  exact ⟨⟨key.1, key.2.1, key.2.2⟩, ⟨key.1, key.2.1, key.2.2⟩⟩

/-- Witness for C9 at a concrete device that is already up: no set-flags
ioctl is issued and the state is untouched. -/
theorem worker_and_pseudo_scan_bring_up_only_if_down_witness :
    (activation_worker_bring_up
        { test_device := false, test_device_up := false,
          driver_unsupported := false, if_flags := 1 }).2 = false
    ∧ (pseudo_scan_bring_up
        { test_device := false, test_device_up := false,
          driver_unsupported := false, if_flags := 1 }) =
        ({ test_device := false, test_device_up := false,
           driver_unsupported := false, if_flags := 1 }, false) := by
  have h := worker_and_pseudo_scan_bring_up_only_if_down
    { test_device := false, test_device_up := false,
      driver_unsupported := false, if_flags := 1 } rfl rfl
  refine ⟨?_, h.2.2.1 (by decide)⟩
  rw [h.1.1]
  decide

/-- C5: calling `activation_begin` during process startup on a wired,
supported, not-yet-activating device that already has a non-zero IPv4
address completes the activation immediately as a success: no worker
thread is started, no `DeviceStatusChanged(Activating)` signal is emitted,
only the final successful finish is scheduled, and the device is left not
activating. -/
theorem activation_begin_startup_wired_special_case (dev : BeginDevice)
    (hact : dev.activating = false) (htype : dev.device_type = .wired)
    (hsup : dev.driver_unsupported = false) (hip : dev.ip4_address ≠ 0) :
    let r := nm_device_activation_begin true dev
    r.ret = true
    ∧ r.scheduled_finish = some true
    ∧ r.worker_started = false
    ∧ r.signals = []
    ∧ r.dev.activating = false := by
  unfold nm_device_activation_begin
  simp [hact, htype, hsup, hip]

/-- Witness for C5 at a concrete wired device with address
`192.0.2.5` (= 0xC0000205). -/
theorem activation_begin_startup_wired_special_case_witness :
    let dev : BeginDevice :=
      { device_type := .wired, activating := false, driver_unsupported := false,
        ip4_address := 0xC0000205 }
    let r := nm_device_activation_begin true dev
    r.ret = true ∧ r.scheduled_finish = some true ∧ r.worker_started = false
    ∧ r.signals = [] ∧ r.dev.activating = false :=
  activation_begin_startup_wired_special_case
    { device_type := .wired, activating := false, driver_unsupported := false,
      ip4_address := 0xC0000205 } rfl rfl rfl (by decide)

/-- Helper: full case analysis of the authentication-fallback loop entered
at SharedKey in infrastructure mode. -/
theorem enc_loop_infra_char (link dhcp autoip : Nat → Bool) :
    activate_wireless_enc_loop .infra link dhcp autoip 3 [] =
      (if link 3 = false ∨ dhcp 3 = false then
        (if link 2 = false then { outcome := .invalidReenterWait, attempts := [3, 2] }
         else if dhcp 2 = false then { outcome := .reenterNeedKey, attempts := [3, 2] }
         else { outcome := .success, attempts := [3, 2] })
      else { outcome := .success, attempts := [3] }) := by
  cases h3 : link 3 <;> cases d3 : dhcp 3 <;> cases h2 : link 2 <;> cases d2 : dhcp 2 <;>
    (unfold activate_wireless_enc_loop
     norm_num [NM_DEVICE_AUTH_METHOD_NONE, NM_DEVICE_AUTH_METHOD_SHARED_KEY, h3, d3, h2, d2]
     try (unfold activate_wireless_enc_loop
          norm_num [NM_DEVICE_AUTH_METHOD_NONE, NM_DEVICE_AUTH_METHOD_SHARED_KEY,
            h3, d3, h2, d2]))

/-- C1: activating an encrypted AP that already has a key (infrastructure
mode): authentication starts at SharedKey; no link under SharedKey drops
to OpenSystem on the same AP; still no link under OpenSystem marks the AP
invalid, appends it to the process-wide invalid list and re-enters
WAIT_FOR_AP; a link with a DHCP failure under SharedKey retries with
OpenSystem; a DHCP failure under OpenSystem returns to NEED_KEY, where the
next request for the same ESSID carries the advanced attempt counter. -/
theorem activate_wireless_encrypted_fallback_ladder (data : NMData) (ap : AccessPoint)
    (link dhcp autoip : Nat → Bool) (hmode : ap.mode = .infra) :
    let act := nm_device_activate_wireless_enc data ap link dhcp autoip
    act.result.attempts.head? = some NM_DEVICE_AUTH_METHOD_SHARED_KEY
    ∧ (link NM_DEVICE_AUTH_METHOD_SHARED_KEY = false →
        act.result.attempts =
          [NM_DEVICE_AUTH_METHOD_SHARED_KEY, NM_DEVICE_AUTH_METHOD_OPEN_SYSTEM])
    ∧ (link NM_DEVICE_AUTH_METHOD_SHARED_KEY = false →
       link NM_DEVICE_AUTH_METHOD_OPEN_SYSTEM = false →
        act.result.outcome = .invalidReenterWait
        ∧ act.invalid_ap_list =
            nm_ap_list_append_ap data.invalid_ap_list (nm_ap_set_invalid ap true))
    ∧ (link NM_DEVICE_AUTH_METHOD_SHARED_KEY = true →
       dhcp NM_DEVICE_AUTH_METHOD_SHARED_KEY = false →
        act.result.attempts =
          [NM_DEVICE_AUTH_METHOD_SHARED_KEY, NM_DEVICE_AUTH_METHOD_OPEN_SYSTEM])
    ∧ ((link NM_DEVICE_AUTH_METHOD_SHARED_KEY = false
        ∨ dhcp NM_DEVICE_AUTH_METHOD_SHARED_KEY = false) →
       link NM_DEVICE_AUTH_METHOD_OPEN_SYSTEM = true →
       dhcp NM_DEVICE_AUTH_METHOD_OPEN_SYSTEM = false →
        act.result.outcome = .reenterNeedKey ∧ act.need_key_next = true)
    ∧ (link NM_DEVICE_AUTH_METHOD_SHARED_KEY = true →
       dhcp NM_DEVICE_AUTH_METHOD_SHARED_KEY = true →
        act.result.outcome = .success
        ∧ act.result.attempts = [NM_DEVICE_AUTH_METHOD_SHARED_KEY])
    ∧ (∀ (a : Nat) (e : String),
        (need_key_request a e e).attempt_used = a
        ∧ (need_key_request a e e).attempt_after = a + 1) := by
  intro act
  have hact : act = nm_device_activate_wireless_enc data ap link dhcp autoip := rfl
  unfold nm_device_activate_wireless_enc at hact
  rw [hmode] at hact
  simp only [NM_DEVICE_AUTH_METHOD_SHARED_KEY] at hact
  rw [enc_loop_infra_char] at hact
  simp only [NM_DEVICE_AUTH_METHOD_SHARED_KEY, NM_DEVICE_AUTH_METHOD_OPEN_SYSTEM]
  have hkey : ∀ (a : Nat) (e : String),
      (need_key_request a e e).attempt_used = a
      ∧ (need_key_request a e e).attempt_after = a + 1 := by
    intro a e
    unfold need_key_request
    simp
  cases h3 : link 3 <;> cases d3 : dhcp 3 <;> cases h2 : link 2 <;> cases d2 : dhcp 2 <;>
    (simp only [h3, d3, h2, d2] at hact
     norm_num at hact
     simp [hact, hkey, h3, d3, h2, d2])

/-- Witness for C1 at concrete oracles where association fails under both
SharedKey and OpenSystem: the AP is invalidated and appended to the
invalid list. -/
theorem activate_wireless_encrypted_fallback_ladder_witness :
    let ap : AccessPoint :=
      { essid := some "wifi", mode := .infra, encrypted := true,
        encKeySource := some "deadbeef01" }
    let act := nm_device_activate_wireless_enc {} ap
      (fun _ => false) (fun _ => false) (fun _ => false)
    act.result.outcome = .invalidReenterWait
    ∧ act.invalid_ap_list = [nm_ap_set_invalid
        { essid := some "wifi", mode := .infra, encrypted := true,
          encKeySource := some "deadbeef01" } true] := by
  have h := activate_wireless_encrypted_fallback_ladder {}
    { essid := some "wifi", mode := .infra, encrypted := true,
      encKeySource := some "deadbeef01" }
    (fun _ => false) (fun _ => false) (fun _ => false) rfl
  have h3 := h.2.2.1 rfl rfl
  exact ⟨h3.1, by rw [h3.2]; rfl⟩

/-- C7: on a scan-processing cycle of a scan-capable, non-synthetic
device with a non-`NULL` result list, the snapshot ring shifts
`S₃ ← S₂; S₂ ← S₁; S₁ ← converted scan` and the device-visible AP list
becomes `combine (S₁, S₂)` over the two newest snapshots. -/
theorem process_scan_results_ring_shift (st : ScanState) (rs : List ScanRecord) :
    ∃ out, nm_device_process_scan_results false true st (some rs) = .processed out
      ∧ out.cached_ap_list1 = convert_scan_results rs
      ∧ out.cached_ap_list2 = st.cached_ap_list1
      ∧ out.cached_ap_list3 = st.cached_ap_list2
      ∧ out.ap_list = nm_ap_list_combine out.cached_ap_list1 out.cached_ap_list2 :=
  ⟨process_scan_shift_and_combine st rs, rfl, rfl, rfl, rfl, rfl⟩

/-- Helper: full evaluation of the probe loop over a three-element auth
list.  There is no early exit: every method is attempted and the last
success determines the outputs. -/
theorem probe_fold_char (assoc : Nat → Bool) (bssid : Nat → List Nat)
    (x y z : Nat) (addr0 : List Nat) :
    [x, y, z].foldl (probe_auth_step assoc bssid)
      { success := false, ap_addr := addr0, encrypted := false, attempts := [] } =
      { success := assoc x || assoc y || assoc z,
        ap_addr :=
          if assoc z then bssid z
          else if assoc y then bssid y
          else if assoc x then bssid x
          else addr0,
        encrypted :=
          if assoc z then z != NM_DEVICE_AUTH_METHOD_NONE
          else if assoc y then y != NM_DEVICE_AUTH_METHOD_NONE
          else if assoc x then x != NM_DEVICE_AUTH_METHOD_NONE
          else false,
        attempts := [x, y, z] } := by
  cases hx : assoc x <;> cases hy : assoc y <;> cases hz : assoc z <;>
    simp [probe_auth_step, hx, hy, hz]

/-- C6 counterexample: with the network absent from the device list and an
environment where association succeeds under SharedKey, fails under
OpenSystem and succeeds under None, `nm_device_wireless_network_exists`
keeps probing past the first success (all three attempts run) and returns
the BSSID and encryption flag of the LAST success, not of the first: it
reports the `None` BSSID and `encrypted = false`, while the first-success
contract would report the SharedKey BSSID and `encrypted = true`. -/
theorem wireless_network_exists_first_success_counterexample :
    let assoc : Nat → Bool := fun a => a == 3 || a == 1
    let bssid : Nat → List Nat := fun a =>
      if a == 3 then [0xAA, 1, 1, 1, 1, 1] else [0xBB, 2, 2, 2, 2, 2]
    let code := nm_device_wireless_network_exists [] "net" assoc bssid [0, 0, 0, 0, 0, 0]
    let spec := wireless_network_exists_first_success [] "net" assoc bssid [0, 0, 0, 0, 0, 0]
    code.success = true
    ∧ code.attempts = [3, 2, 1]
    ∧ code.ap_addr = [0xBB, 2, 2, 2, 2, 2]
    ∧ code.encrypted = false
    ∧ spec.attempts = [3]
    ∧ spec.ap_addr = [0xAA, 1, 1, 1, 1, 1]
    ∧ spec.encrypted = true
    ∧ code ≠ spec := by
  decide

/-- C6 (amended): `nm_device_wireless_network_exists` probes an
infrastructure network with the auth methods in the order SharedKey,
OpenSystem, None — or None, SharedKey, OpenSystem when the AP is known in
the device list as unencrypted — but attempts every method without
stopping at a success; the BSSID and encryption-needed flag of the LAST
successful association are returned, and when the AP is in the device
list the returned encryption flag is taken from that entry instead. -/
theorem wireless_network_exists_last_success (dev_list : List AccessPoint)
    (network : String) (assoc : Nat → Bool) (bssid : Nat → List Nat) (addr0 : List Nat)
    (hmode : (match nm_ap_list_get_ap_by_essid dev_list (some network) with
              | some a => a.mode
              | none => NMNetworkMode.infra) = NMNetworkMode.infra) :
    let r := nm_device_wireless_network_exists dev_list network assoc bssid addr0
    let auths := wireless_exists_auth_order dev_list network
    r.attempts = auths
    ∧ r.success = auths.any assoc
    ∧ r.ap_addr = (match auths.reverse.find? assoc with
                   | some a => bssid a
                   | none => addr0)
    ∧ r.encrypted = (match nm_ap_list_get_ap_by_essid dev_list (some network) with
                     | some a => a.encrypted
                     | none =>
                       match auths.reverse.find? assoc with
                       | some a => a != NM_DEVICE_AUTH_METHOD_NONE
                       | none => false) := by
  rcases hap : nm_ap_list_get_ap_by_essid dev_list (some network) with _ | a
  · cases h3 : assoc 3 <;> cases h2 : assoc 2 <;> cases h1 : assoc 1 <;>
      simp [nm_device_wireless_network_exists, wireless_exists_auth_order,
        probe_auth_step, hap, h3, h2, h1, NM_DEVICE_AUTH_METHOD_NONE,
        NM_DEVICE_AUTH_METHOD_OPEN_SYSTEM, NM_DEVICE_AUTH_METHOD_SHARED_KEY,
        List.find?, List.any]
  · have hmode2 : a.mode = .infra := by simpa [hap] using hmode
    cases henc : a.encrypted <;>
      cases h3 : assoc 3 <;> cases h2 : assoc 2 <;> cases h1 : assoc 1 <;>
        simp [nm_device_wireless_network_exists, wireless_exists_auth_order,
          probe_auth_step, hap, hmode2, henc, h3, h2, h1, NM_DEVICE_AUTH_METHOD_NONE,
          NM_DEVICE_AUTH_METHOD_OPEN_SYSTEM, NM_DEVICE_AUTH_METHOD_SHARED_KEY,
          List.find?, List.any]

/-- Witness for C6 (amended) at a concrete input: the network is unknown,
only OpenSystem associates, and its BSSID with `encrypted = true` is
returned. -/
theorem wireless_network_exists_last_success_witness :
    let assoc : Nat → Bool := fun a => a == 2
    let bssid : Nat → List Nat := fun _ => [0xCC, 3, 3, 3, 3, 3]
    let r := nm_device_wireless_network_exists [] "net" assoc bssid [0, 0, 0, 0, 0, 0]
    r.attempts = [3, 2, 1] ∧ r.success = true
    ∧ r.ap_addr = [0xCC, 3, 3, 3, 3, 3] ∧ r.encrypted = true := by
  have h := wireless_network_exists_last_success [] "net" (fun a => a == 2)
    (fun _ => [0xCC, 3, 3, 3, 3, 3]) [0, 0, 0, 0, 0, 0] (by decide)
  refine ⟨?_, ?_, ?_, ?_⟩
  · rw [h.1]
    decide
  · rw [h.2.1]
    decide
  · rw [h.2.2.1]
    decide
  · rw [h.2.2.2]
    decide

/-- Helper: a recomputed selection always leaves the freeze flag cleared
(`nm_device_set_best_ap` unfreezes). -/
theorem update_best_ap_select_freeze_false (data : NMData) (dev : DeviceState) :
    (update_best_ap_select data dev).freeze_best_ap = false := by
  unfold update_best_ap_select
  simp only [nm_device_set_best_ap]
  split <;> rfl

/-- C3: when the best AP is frozen, `nm_device_update_best_ap` keeps the
current selection (the whole device state) unchanged exactly when the
frozen AP is still in the device's visible list and not in the invalid
list, or is user-created; otherwise it clears the freeze flag and
recomputes the selection. -/
theorem update_best_ap_frozen_keep_iff (data : NMData) (dev : DeviceState)
    (b : AccessPoint) (hf : dev.freeze_best_ap = true) (hb : dev.best_ap = some b) :
    (nm_device_update_best_ap data dev = dev ↔
      (((nm_ap_list_get_ap_by_essid data.invalid_ap_list b.essid).isNone
          && (nm_ap_list_get_ap_by_essid dev.ap_list b.essid).isSome)
        || b.userCreated) = true)
    ∧ ((((nm_ap_list_get_ap_by_essid data.invalid_ap_list b.essid).isNone
          && (nm_ap_list_get_ap_by_essid dev.ap_list b.essid).isSome)
        || b.userCreated) = false →
        nm_device_update_best_ap data dev =
          update_best_ap_select data { dev with freeze_best_ap := false }
        ∧ (nm_device_update_best_ap data dev).freeze_best_ap = false) := by
  have hres : nm_device_update_best_ap data dev =
      (if (((nm_ap_list_get_ap_by_essid data.invalid_ap_list b.essid).isNone
            && (nm_ap_list_get_ap_by_essid dev.ap_list b.essid).isSome)
          || b.userCreated) = true then dev
       else update_best_ap_select data { dev with freeze_best_ap := false }) := by
    unfold nm_device_update_best_ap
    rw [hf, hb]
    rcases Bool.eq_false_or_eq_true
        (((nm_ap_list_get_ap_by_essid data.invalid_ap_list b.essid).isNone
            && (nm_ap_list_get_ap_by_essid dev.ap_list b.essid).isSome)
          || b.userCreated) with h | h <;>
      simp [h]
  by_cases hkeep : (((nm_ap_list_get_ap_by_essid data.invalid_ap_list b.essid).isNone
      && (nm_ap_list_get_ap_by_essid dev.ap_list b.essid).isSome)
    || b.userCreated) = true
  · rw [hres, if_pos hkeep]
    exact ⟨⟨fun _ => hkeep, fun _ => rfl⟩, fun habs => by rw [hkeep] at habs; cases habs⟩
  · rw [hres, if_neg hkeep]
    constructor
    · constructor
      · intro heq
        exfalso
        have hfr := update_best_ap_select_freeze_false data { dev with freeze_best_ap := false }
        rw [heq, hf] at hfr
        cases hfr
      · intro h
        exact absurd h hkeep
    · intro _
      exact ⟨rfl, update_best_ap_select_freeze_false data _⟩

/-- Witness for C3 at a concrete frozen device: the frozen AP "lab" is
still visible and not invalid, so the state is kept unchanged; and for a
device where "lab" vanished from the visible list, the freeze flag ends
up cleared. -/
theorem update_best_ap_frozen_keep_iff_witness :
    let lab : AccessPoint := { essid := some "lab" }
    let devKeep : DeviceState :=
      { ap_list := [lab], best_ap := some lab, freeze_best_ap := true }
    let devGone : DeviceState :=
      { ap_list := [], best_ap := some lab, freeze_best_ap := true }
    nm_device_update_best_ap {} devKeep = devKeep
    ∧ (nm_device_update_best_ap {} devGone).freeze_best_ap = false := by
  constructor
  · exact (update_best_ap_frozen_keep_iff {} _ { essid := some "lab" } rfl rfl).1.mpr
      (by decide)
  · exact ((update_best_ap_frozen_keep_iff {} _ { essid := some "lab" } rfl rfl).2
      (by decide)).2

/-- Helper: one scan-loop iteration, written through `best_ap_candidate`. -/
theorem update_best_ap_step_eq (data : NMData) (acc : BestScanAcc) (ap : AccessPoint) :
    update_best_ap_step data acc ap =
      match best_ap_candidate data ap with
      | none => acc
      | some tmp_ap =>
        if tmp_ap.trusted && decide (tmp_ap.timestampSec > acc.trusted_latest) then
          { acc with trusted_latest := tmp_ap.timestampSec,
                     trusted_best :=
                       some (nm_ap_set_enc_key_source ap tmp_ap.encKeySource tmp_ap.encMethod) }
        else if !tmp_ap.trusted && decide (tmp_ap.timestampSec > acc.untrusted_latest) then
          { acc with untrusted_latest := tmp_ap.timestampSec,
                     untrusted_best :=
                       some (nm_ap_set_enc_key_source ap tmp_ap.encKeySource tmp_ap.encMethod) }
        else acc := by
  unfold update_best_ap_step best_ap_candidate
  cases h : (nm_ap_list_get_ap_by_essid data.invalid_ap_list ap.essid).isSome <;> simp [h]

/-- Helper: extending the processed prefix by an AP whose contribution on
this trust side (if any) stays within the held maximum preserves a side
invariant. -/
theorem acc_side_inv_append (data : NMData) (want : Bool) (l : List AccessPoint)
    (latest : Nat) (besto : Option AccessPoint) (ap : AccessPoint)
    (h : acc_side_inv data want l latest besto)
    (hsk : ∀ e, best_ap_candidate data ap = some e → e.trusted = want →
      e.timestampSec ≤ latest) :
    acc_side_inv data want (l ++ [ap]) latest besto := by
  unfold acc_side_inv at h ⊢
  cases besto with
  | none =>
    refine ⟨h.1, fun ap2 hm e he hw => ?_⟩
    rcases List.mem_append.mp hm with hm | hm
    · exact h.2 ap2 hm e he hw
    · rw [List.mem_singleton.mp hm] at he
      have h1 := hsk e he hw
      have h0 := h.1
      omega
  | some b =>
    obtain ⟨hp, ⟨apw, hmw, ew, hcw, htw, htsw, hbw⟩, hmax⟩ := h
    refine ⟨hp, ⟨apw, List.mem_append_left _ hmw, ew, hcw, htw, htsw, hbw⟩,
      fun ap2 hm e he hw => ?_⟩
    rcases List.mem_append.mp hm with hm | hm
    · exact hmax ap2 hm e he hw
    · rw [List.mem_singleton.mp hm] at he
      exact hsk e he hw

/-- Helper: one scan-loop iteration preserves both side invariants, the
processed prefix growing by the AP just visited. -/
theorem update_best_ap_step_inv (data : NMData) (l : List AccessPoint) (ap : AccessPoint)
    (acc : BestScanAcc)
    (ht : acc_side_inv data true l acc.trusted_latest acc.trusted_best)
    (hu : acc_side_inv data false l acc.untrusted_latest acc.untrusted_best) :
    acc_side_inv data true (l ++ [ap])
        (update_best_ap_step data acc ap).trusted_latest
        (update_best_ap_step data acc ap).trusted_best
    ∧ acc_side_inv data false (l ++ [ap])
        (update_best_ap_step data acc ap).untrusted_latest
        (update_best_ap_step data acc ap).untrusted_best := by
  rw [update_best_ap_step_eq]
  cases hc : best_ap_candidate data ap with
  | none =>
    exact ⟨acc_side_inv_append data true l _ _ ap ht
        (fun e he _ => by rw [hc] at he; cases he),
      acc_side_inv_append data false l _ _ ap hu
        (fun e he _ => by rw [hc] at he; cases he)⟩
  | some tmp =>
    have hmax_of_inv : ∀ (want : Bool) (latest : Nat) (besto : Option AccessPoint),
        acc_side_inv data want l latest besto →
        ∀ ap2 ∈ l, ∀ e, best_ap_candidate data ap2 = some e → e.trusted = want →
          e.timestampSec ≤ latest := by
      intro want latest besto hinv ap2 hm e he hw
      unfold acc_side_inv at hinv
      cases besto with
      | none =>
        have := hinv.2 ap2 hm e he hw
        omega
      | some b0 => exact hinv.2.2 ap2 hm e he hw
    cases htr : tmp.trusted with
    | true =>
      cases hgt : decide (tmp.timestampSec > acc.trusted_latest) with
      | true =>
        have hgt2 : tmp.timestampSec > acc.trusted_latest := of_decide_eq_true hgt
        simp only [htr, hgt, Bool.true_and, Bool.false_eq_true, Bool.true_eq_false,
          if_true, if_false, ite_true, ite_false]
        constructor
        · -- the trusted side takes the new maximum
          unfold acc_side_inv
          refine ⟨by omega,
            ⟨ap, List.mem_append_right _ (List.mem_singleton.mpr rfl), tmp, hc, htr, rfl, rfl⟩,
            fun ap2 hm e he hw => ?_⟩
          rcases List.mem_append.mp hm with hm | hm
          · have := hmax_of_inv true acc.trusted_latest acc.trusted_best ht ap2 hm e he hw
            omega
          · rw [List.mem_singleton.mp hm, hc] at he
            cases he
            omega
        · -- the untrusted side is untouched; the new AP is a trusted match
          exact acc_side_inv_append data false l _ _ ap hu
            (fun e he hw => by
              rw [hc] at he
              cases he
              rw [htr] at hw
              cases hw)
      | false =>
        have hle : tmp.timestampSec ≤ acc.trusted_latest := by
          have := of_decide_eq_false hgt
          omega
        simp only [htr, hgt, Bool.true_and, Bool.not_true, Bool.false_and,
          Bool.false_eq_true, Bool.true_eq_false, if_true, if_false, ite_true, ite_false]
        constructor
        · exact acc_side_inv_append data true l _ _ ap ht
            (fun e he _ => by
              rw [hc] at he
              cases he
              exact hle)
        · exact acc_side_inv_append data false l _ _ ap hu
            (fun e he hw => by
              rw [hc] at he
              cases he
              rw [htr] at hw
              cases hw)
    | false =>
      cases hgt : decide (tmp.timestampSec > acc.untrusted_latest) with
      | true =>
        have hgt2 : tmp.timestampSec > acc.untrusted_latest := of_decide_eq_true hgt
        simp only [htr, hgt, Bool.false_and, Bool.not_false, Bool.true_and,
          Bool.false_eq_true, Bool.true_eq_false, if_true, if_false, ite_true, ite_false]
        constructor
        · exact acc_side_inv_append data true l _ _ ap ht
            (fun e he hw => by
              rw [hc] at he
              cases he
              rw [htr] at hw
              cases hw)
        · unfold acc_side_inv
          refine ⟨by omega,
            ⟨ap, List.mem_append_right _ (List.mem_singleton.mpr rfl), tmp, hc, htr, rfl, rfl⟩,
            fun ap2 hm e he hw => ?_⟩
          rcases List.mem_append.mp hm with hm | hm
          · have := hmax_of_inv false acc.untrusted_latest acc.untrusted_best hu ap2 hm e he hw
            omega
          · rw [List.mem_singleton.mp hm, hc] at he
            cases he
            omega
      | false =>
        have hle : tmp.timestampSec ≤ acc.untrusted_latest := by
          have := of_decide_eq_false hgt
          omega
        simp only [htr, hgt, Bool.false_and, Bool.not_false, Bool.true_and,
          Bool.false_eq_true, Bool.true_eq_false, if_true, if_false, ite_true, ite_false]
        constructor
        · exact acc_side_inv_append data true l _ _ ap ht
            (fun e he hw => by
              rw [hc] at he
              cases he
              rw [htr] at hw
              cases hw)
        · exact acc_side_inv_append data false l _ _ ap hu
            (fun e he _ => by
              rw [hc] at he
              cases he
              exact hle)

/-- Helper: the whole scan loop establishes both side invariants. -/
theorem update_best_ap_fold_inv (data : NMData) (l : List AccessPoint) :
    ∀ (l0 : List AccessPoint) (acc : BestScanAcc),
      acc_side_inv data true l0 acc.trusted_latest acc.trusted_best →
      acc_side_inv data false l0 acc.untrusted_latest acc.untrusted_best →
      acc_side_inv data true (l0 ++ l)
          ((l.foldl (update_best_ap_step data) acc)).trusted_latest
          ((l.foldl (update_best_ap_step data) acc)).trusted_best
      ∧ acc_side_inv data false (l0 ++ l)
          ((l.foldl (update_best_ap_step data) acc)).untrusted_latest
          ((l.foldl (update_best_ap_step data) acc)).untrusted_best := by
  induction l with
  | nil =>
    intro l0 acc ht hu
    simpa using ⟨ht, hu⟩
  | cons a t ih =>
    intro l0 acc ht hu
    have hstep := update_best_ap_step_inv data l0 a acc ht hu
    have hrec := ih (l0 ++ [a]) (update_best_ap_step data acc a) hstep.1 hstep.2
    simpa [List.append_assoc] using hrec

/-- Helper: the empty-accumulator side invariant, by definitional
unfolding. -/
theorem acc_side_inv_none_elim {data : NMData} {want : Bool} {l : List AccessPoint}
    {latest : Nat} (h : acc_side_inv data want l latest none) :
    latest = 0 ∧ ∀ ap ∈ l, ∀ e, best_ap_candidate data ap = some e →
      e.trusted = want → e.timestampSec = 0 := h

/-- Helper: the held-candidate side invariant, by definitional
unfolding. -/
theorem acc_side_inv_some_elim {data : NMData} {want : Bool} {l : List AccessPoint}
    {latest : Nat} {b : AccessPoint} (h : acc_side_inv data want l latest (some b)) :
    0 < latest
    ∧ (∃ ap ∈ l, ∃ e, best_ap_candidate data ap = some e ∧ e.trusted = want
        ∧ e.timestampSec = latest
        ∧ b = nm_ap_set_enc_key_source ap e.encKeySource e.encMethod)
    ∧ ∀ ap ∈ l, ∀ e, best_ap_candidate data ap = some e → e.trusted = want →
        e.timestampSec ≤ latest := h

/-- C2 counterexample: an AP whose trusted allowed match carries timestamp
zero (the seconds field of a `GTimeVal {0, 0}`) is a visible, non-invalid
trusted candidate, yet the unfrozen selector picks NO best AP (the
running maxima start at `{0, 0}` and are only replaced on a strictly
greater timestamp) and clears the radio — falsifying "picks the trusted
candidate if one exists". -/
theorem update_best_ap_zero_timestamp_counterexample :
    let data : NMData :=
      { allowed_ap_list := [{ essid := some "a", trusted := true, timestampSec := 0 }] }
    let dev : DeviceState := { ap_list := [{ essid := some "a" }] }
    -- a visible AP matches a trusted allowed entry and is not invalid-listed
    (nm_ap_list_get_ap_by_essid data.invalid_ap_list (some "a")).isNone = true
    ∧ best_ap_candidate data { essid := some "a" } =
        some { essid := some "a", trusted := true, timestampSec := 0 }
    ∧ dev.freeze_best_ap = false
    -- yet the selection comes out empty and the radio is cleared
    ∧ (nm_device_update_best_ap data dev).best_ap = none
    ∧ (nm_device_update_best_ap data dev).cur_essid = some " "
    ∧ (nm_device_update_best_ap data dev).iface_up = true := by
  decide

/-- C2 (amended): when the selection is not frozen,
`nm_device_update_best_ap` skips visible APs whose ESSID is in the invalid
list and considers APs matching an allowed entry, tracking the trusted and
the untrusted candidate with the highest STRICTLY POSITIVE allowed
timestamp (an AP whose allowed match has timestamp zero is never a
candidate; the earliest-listed candidate wins ties) and copying the
allowed entry's key material onto the candidate; it picks the trusted
candidate if one exists, else the untrusted one, else none, and on a none
result clears the radio's ESSID and encryption key and brings the
interface up. -/
theorem update_best_ap_select_spec (data : NMData) (dev : DeviceState)
    (hfree : dev.freeze_best_ap = false) :
    let r := nm_device_update_best_ap data dev
    (r.best_ap = none ↔
      ∀ ap ∈ dev.ap_list, ∀ e, best_ap_candidate data ap = some e → e.timestampSec = 0)
    ∧ (r.best_ap = none →
        r.cur_essid = some " " ∧ r.enc_key_on_card = none ∧ r.iface_up = true)
    ∧ (∀ b, r.best_ap = some b →
        ∃ ap ∈ dev.ap_list, ∃ e, best_ap_candidate data ap = some e
          ∧ 0 < e.timestampSec
          ∧ b = nm_ap_set_enc_key_source ap e.encKeySource e.encMethod
          ∧ (e.trusted = true →
              ∀ ap2 ∈ dev.ap_list, ∀ e2, best_ap_candidate data ap2 = some e2 →
                e2.trusted = true → e2.timestampSec ≤ e.timestampSec)
          ∧ (e.trusted = false →
              (∀ ap2 ∈ dev.ap_list, ∀ e2, best_ap_candidate data ap2 = some e2 →
                e2.trusted = false → e2.timestampSec ≤ e.timestampSec)
              ∧ (∀ ap2 ∈ dev.ap_list, ∀ e2, best_ap_candidate data ap2 = some e2 →
                e2.trusted = true → e2.timestampSec = 0)))
    ∧ r.freeze_best_ap = false := by
  intro r
  have hr : r = update_best_ap_select data dev := by
    show nm_device_update_best_ap data dev = _
    unfold nm_device_update_best_ap
    rw [hfree]
    simp
  have hinit : acc_side_inv data true ([] : List AccessPoint) 0 none
      ∧ acc_side_inv data false ([] : List AccessPoint) 0 none := by
    constructor <;> exact ⟨rfl, by intro ap hm; cases hm⟩
  have hinv := update_best_ap_fold_inv data dev.ap_list [] {} hinit.1 hinit.2
  rw [List.nil_append] at hinv
  have ht := hinv.1
  have hu := hinv.2
  unfold update_best_ap_select at hr
  rcases htb : (dev.ap_list.foldl (update_best_ap_step data) {}).trusted_best with _ | bt
  · rw [htb] at ht
    obtain ⟨hlt0, htz⟩ := acc_side_inv_none_elim ht
    rcases hub : (dev.ap_list.foldl (update_best_ap_step data) {}).untrusted_best with _ | bu
    · -- no candidate at all: best is none, the radio is cleared
      rw [hub] at hu
      obtain ⟨hlu0, huz⟩ := acc_side_inv_none_elim hu
      simp only [htb, hub, nm_device_set_best_ap] at hr
      refine ⟨?_, ?_, ?_, ?_⟩
      · rw [hr]
        simp only [true_iff]
        intro ap hm e he
        cases hwt : e.trusted
        · exact huz ap hm e he hwt
        · exact htz ap hm e he hwt
      · intro _
        rw [hr]
        exact ⟨rfl, rfl, rfl⟩
      · intro b hb
        rw [hr] at hb
        simp at hb
      · rw [hr]
    · -- only an untrusted candidate: it is picked
      rw [hub] at hu
      obtain ⟨hp, ⟨apw, hmw, ew, hcw, htw, htsw, hbw⟩, hmaxU⟩ := acc_side_inv_some_elim hu
      simp only [htb, hub, nm_device_set_best_ap] at hr
      refine ⟨?_, ?_, ?_, ?_⟩
      · rw [hr]
        constructor
        · intro hbad
          simp at hbad
        · intro hall
          exfalso
          have := hall apw hmw ew hcw
          omega
      · intro hb
        rw [hr] at hb
        simp at hb
      · intro b hb
        rw [hr] at hb
        simp only [Option.some.injEq] at hb
        refine ⟨apw, hmw, ew, hcw, by omega, by rw [← hb, hbw], ?_, ?_⟩
        · intro hcontra
          rw [htw] at hcontra
          cases hcontra
        · intro _
          refine ⟨fun ap2 hm2 e2 he2 hw2 => ?_, fun ap2 hm2 e2 he2 hw2 => ?_⟩
          · have := hmaxU ap2 hm2 e2 he2 hw2
            omega
          · exact htz ap2 hm2 e2 he2 hw2
      · rw [hr]
  · -- a trusted candidate exists: it is picked over any untrusted one
    rw [htb] at ht
    obtain ⟨hp, ⟨apw, hmw, ew, hcw, htw, htsw, hbw⟩, hmaxT⟩ := acc_side_inv_some_elim ht
    simp only [htb, nm_device_set_best_ap] at hr
    refine ⟨?_, ?_, ?_, ?_⟩
    · rw [hr]
      constructor
      · intro hbad
        simp at hbad
      · intro hall
        exfalso
        have := hall apw hmw ew hcw
        omega
    · intro hb
      rw [hr] at hb
      simp at hb
    · intro b hb
      rw [hr] at hb
      simp only [Option.some.injEq] at hb
      refine ⟨apw, hmw, ew, hcw, by omega, by rw [← hb, hbw], ?_, ?_⟩
      · intro _
        intro ap2 hm2 e2 he2 hw2
        have := hmaxT ap2 hm2 e2 he2 hw2
        omega
      · intro hcontra
        rw [htw] at hcontra
        cases hcontra
    · rw [hr]

/-- Witness for C2 (amended) at a concrete device: the only visible AP
matches a trusted allowed entry with timestamp zero, so the selection is
empty and the radio is cleared with the interface brought up. -/
theorem update_best_ap_select_spec_witness :
    let data : NMData :=
      { allowed_ap_list := [{ essid := some "home", trusted := true, timestampSec := 0 }] }
    let dev : DeviceState := { ap_list := [{ essid := some "home" }] }
    (nm_device_update_best_ap data dev).cur_essid = some " "
    ∧ (nm_device_update_best_ap data dev).enc_key_on_card = none
    ∧ (nm_device_update_best_ap data dev).iface_up = true := by
  have h := update_best_ap_select_spec
    { allowed_ap_list := [{ essid := some "home", trusted := true, timestampSec := 0 }] }
    { ap_list := [{ essid := some "home" }] } rfl
  exact h.2.1 (by decide)

/-- C4 counterexample: the cancellation test is a `strncmp` over
`strlen ("***canceled***")` bytes, i.e. a PREFIX match, not an exact
comparison.  The reply `"***canceled***X"` differs from the sentinel, yet
the code takes the cancellation branch: the named AP is copied onto the
invalid list and the best AP is recomputed away instead of the reply
being stored as the key. -/
theorem set_user_key_cancel_prefix_counterexample :
    let wifi : AccessPoint := { essid := some "wifi", encrypted := true }
    let dev : DeviceState := { ap_list := [wifi], best_ap := some wifi }
    let r := nm_device_set_user_key_for_network {} dev "wifi" "***canceled***X" .hexKey
    ("***canceled***X" = cancel_message ↔ False)
    ∧ r.invalid_ap_list = [wifi]
    ∧ r.dev.best_ap = none
    ∧ (∀ b, r.dev.best_ap = some b → b.encKeySource ≠ some "***canceled***X")
    ∧ r.dev.user_key_received = true := by
  refine ⟨by decide, by decide, by decide, ?_, by decide⟩
  intro b hb
  rw [show (nm_device_set_user_key_for_network {}
      { ap_list := [{ essid := some "wifi", encrypted := true }],
        best_ap := some { essid := some "wifi", encrypted := true } }
      "wifi" "***canceled***X" .hexKey).dev.best_ap = none from by decide] at hb
  cases hb

/-- C4 (amended): a key reply delivered to
`nm_device_set_user_key_for_network` is treated as a cancellation exactly
when it BEGINS with the bytes `"***canceled***"`; on cancellation a copy
of the named AP (when the device list holds one under that ESSID) is
appended to the process-wide invalid list and the best AP is recomputed
against the extended list, while any other reply is stored as the key of
the current best AP when that AP's ESSID matches the request; in every
case the key-received flag is set so the waiting worker resumes. -/
theorem set_user_key_for_network_spec (data : NMData) (dev : DeviceState)
    (network key : String) (m : NMEncKeyType) :
    (nm_device_set_user_key_for_network data dev network key m).dev.user_key_received = true
    ∧ (cancel_matches key = true →
        (nm_device_set_user_key_for_network data dev network key m).invalid_ap_list =
          (match nm_ap_list_get_ap_by_essid dev.ap_list (some network) with
           | some ap => nm_ap_list_append_ap data.invalid_ap_list ap
           | none => data.invalid_ap_list)
        ∧ (nm_device_set_user_key_for_network data dev network key m).dev.best_ap =
            (nm_device_update_best_ap
              { data with invalid_ap_list :=
                  (nm_device_set_user_key_for_network data dev network key
                    m).invalid_ap_list } dev).best_ap)
    ∧ (cancel_matches key = false →
        (nm_device_set_user_key_for_network data dev network key m).invalid_ap_list =
          data.invalid_ap_list
        ∧ (∀ b, dev.best_ap = some b → b.essid = some network →
            (nm_device_set_user_key_for_network data dev network key m).dev.best_ap =
              some (nm_ap_set_enc_key_source b (some key) m))
        ∧ (∀ b, dev.best_ap = some b → ¬ b.essid = some network →
            (nm_device_set_user_key_for_network data dev network key m).dev.best_ap = some b)
        ∧ (dev.best_ap = none →
            (nm_device_set_user_key_for_network data dev network key m).dev.best_ap
              = none)) := by
  cases hc : cancel_matches key
  · refine ⟨?_, ?_, ?_⟩
    · rcases hb : dev.best_ap with _ | b <;>
        simp [nm_device_set_user_key_for_network, hc, hb]
    · intro hcontra
      cases hcontra
    · intro _
      refine ⟨?_, ?_, ?_, ?_⟩
      · rcases hb : dev.best_ap with _ | b <;>
          simp [nm_device_set_user_key_for_network, hc, hb]
      · intro b2 hb2 he2
        simp [nm_device_set_user_key_for_network, hc, hb2, he2]
      · intro b2 hb2 hne2
        simp [nm_device_set_user_key_for_network, hc, hb2, hne2]
      · intro hb2
        simp [nm_device_set_user_key_for_network, hc, hb2]
  · refine ⟨?_, ?_, ?_⟩
    · simp [nm_device_set_user_key_for_network, hc]
    · intro _
      refine ⟨?_, ?_⟩
      · simp [nm_device_set_user_key_for_network, hc]
      · simp [nm_device_set_user_key_for_network, hc]
    · intro hcontra
      cases hcontra

/-- Witness for C4 (amended) at the exact sentinel reply on a device whose
list holds the AP "wifi": the key-received flag is set and the AP is
appended to the invalid list. -/
theorem set_user_key_for_network_spec_witness :
    let wifi : AccessPoint := { essid := some "wifi", encrypted := true }
    let dev : DeviceState := { ap_list := [wifi], best_ap := some wifi }
    let r := nm_device_set_user_key_for_network {} dev "wifi" cancel_message .hexKey
    r.dev.user_key_received = true ∧ r.invalid_ap_list = [wifi] := by
  have h := set_user_key_for_network_spec {}
    { ap_list := [{ essid := some "wifi", encrypted := true }],
      best_ap := some { essid := some "wifi", encrypted := true } }
    "wifi" cancel_message .hexKey
  refine ⟨h.1, ?_⟩
  rw [(h.2.1 (by decide)).1]
  decide

end NMDev
